import Mathlib

/-!
# Verification of the Mergington activities backend

Shallow embedding of the repository's three Python source files:

* `src/src/db.py` — the `ActivityDatabase` store adapter over a MongoDB
  activities collection (connect / close / CRUD / participant add-remove);
* `src/src/app.py` — the FastAPI request handlers for signup and unregister;
* `src/migrate_to_mongo.py` — the one-shot seed script.

Modelling conventions:

* A BSON value is `BVal` (strings, ints, arrays, object ids); a document is
  an ordered association list `Doc` with unique keys, mirroring a Python
  dict (`dlookup`, `dpop`, `dset` mirror `d[k]`, `d.pop(k)`, `d[k] = v`).
* The activities collection is the list of its documents plus a flag
  recording whether the unique index on `"name"` (created by `connect`)
  is present.
* The adapter object `ActivityDatabase` carries the references that
  `db.py` holds in `self.client` / `self.db` /
  `self.activities_collection` as "is set" flags (each is `None` until
  `connect` assigns it), a `closed` flag set by `close()` (which does
  *not* clear the references), the server-side collection state, and a
  counter for generated object ids.
* A Python call that may raise is modelled as `Except PyExc _`; `.error`
  means the exception escapes the function uncaught.

The load-bearing library fact, `pyNotCollection` below: every adapter
operation in `db.py` begins with `if not self.activities_collection:`.
`db.py` imports `ServerSelectionTimeoutError`, which exists only in
pymongo >= 3.0, and in every such version `Collection.__bool__`
deliberately raises `NotImplementedError` ("Collection objects do not
implement truth value testing or bool(). Please compare with None
instead: collection is not None"). So the guard returns the falsy branch
only while the reference is still `None`; the moment `connect` assigns a
real collection, the guard line itself raises — outside the `try/except`
of every mutator — and no operation ever reaches the store. The
operations below model this: the `.ok false` arm of the guard (the
collection reference set yet truth-testing returning `False`) can never
occur, and the store semantics kept under it translate the remainder of
each function body, which is dead code in the real program.
`MongoClient`, by contrast, does not override `__bool__`, so the
`if self.client:` test in `close()` is an ordinary is-set test; and
because the collection guard raises before any driver call, the
pymongo 3.x/4.x difference in using a closed client never comes into
play.

`connect` takes an oracle `failAt` naming the step (client construction,
ping, database lookup, collection lookup, index creation) at which the
driver raises, `none` meaning a clean run; the `try/except` in `connect`
catches every such error. None of the calls `connect` itself makes
truth-tests a Collection, so `connect` really does reach and assign the
collection reference on a clean run.
-/

set_option autoImplicit false

namespace Mergington

/-- A BSON/Python value stored in an activity document. Arrays hold
strings: every array in this program's data is a participant roster of
email strings. -/
inductive BVal where
  | s (v : String)
  | i (v : Int)
  | arr (l : List String)
  | oid (k : Nat)
deriving DecidableEq, Repr

/-- A document / Python dict: ordered association list with unique keys. -/
abbrev Doc := List (String × BVal)

/-- Python `d[k]` lookup on a dict. -/
def dlookup (d : Doc) (k : String) : Option BVal :=
  match d with
  | [] => none
  | (k2, v) :: rest => if k2 = k then some v else dlookup rest k

/-- Python `d.pop(k, None)`: remove the binding of `k` if present. -/
def dpop (d : Doc) (k : String) : Doc :=
  match d with
  | [] => []
  | (k2, v) :: rest => if k2 = k then rest else (k2, v) :: dpop rest k

/-- Python `k in d` for a dict. -/
def dhas (d : Doc) (k : String) : Bool := (dlookup d k).isSome

/-- Python `d[k] = v`: update in place if the key exists, else append. -/
def dset (d : Doc) (k : String) (v : BVal) : Doc :=
  match d with
  | [] => [(k, v)]
  | (k2, v2) :: rest => if k2 = k then (k2, v) :: rest else (k2, v2) :: dset rest k v

/-- The server-side activities collection: its documents and whether the
unique index on `"name"` exists. -/
structure Collection where
  docs : List Doc
  uniqueIndexOnName : Bool
deriving DecidableEq, Repr

/-- A Python exception escaping a call: the `NotImplementedError` that
pymongo raises on truth-testing a `Collection`, a `KeyError` from
`dict.pop`, or a server `WriteError` / `TypeError` from a type-confused
field. -/
inductive PyExc where
  | notImplError
  | keyError
  | typeError
deriving DecidableEq, Repr

/-- The state of the `ActivityDatabase` adapter object together with the
store it talks to. `clientSet` / `dbSet` / `collSet` model whether
`self.client` / `self.db` / `self.activities_collection` hold a reference
(each is initially `None`); `closed` records that `close()` was called on
the held client. -/
structure ActivityDatabase where
  clientSet : Bool
  dbSet : Bool
  collSet : Bool
  closed : Bool
  store : Collection
  nextOid : Nat
deriving DecidableEq, Repr

namespace ActivityDatabase

/-- The adapter as freshly constructed (`ActivityDatabase()`), facing a
given server-side collection. -/
def init (store : Collection) : ActivityDatabase :=
  { clientSet := false, dbSet := false, collSet := false, closed := false,
    store := store, nextOid := 0 }

/-- The step of `connect` at which the driver raises. -/
inductive ConnectStep where
  | mkClient
  | ping
  | dbLookup
  | collLookup
  | createIndex
deriving DecidableEq, Repr

/-- Model of `connect()` from `db.py`: build the client, ping, look up
database and collection, create the unique index on `"name"`; the
`try/except` catches any error at any step and returns `False`, leaving
exactly the fields assigned before the failing step. -/
def connect (s : ActivityDatabase) (failAt : Option ConnectStep) :
    Bool × ActivityDatabase :=
  if failAt = some .mkClient then (false, s)
  else
    let s1 := { s with clientSet := true, closed := false }
    if failAt = some .ping then (false, s1)
    else if failAt = some .dbLookup then (false, s1)
    else
      let s2 := { s1 with dbSet := true }
      if failAt = some .collLookup then (false, s2)
      else
        let s3 := { s2 with collSet := true }
        if failAt = some .createIndex then (false, s3)
        else
          (true, { s3 with store := { s3.store with uniqueIndexOnName := true } })

/-- Model of `close()` from `db.py`: closes the client if one is held
(`if self.client:` is an ordinary truth test — `MongoClient` does not
override `__bool__`); the object's references (`client`, `db`,
`activities_collection`) are *not* cleared. -/
def close (s : ActivityDatabase) : ActivityDatabase :=
  if s.clientSet then { s with closed := true } else s

end ActivityDatabase

/-- Python `not self.activities_collection`, the guard opening every
adapter operation: while the reference is `None`, `not None` is `True`
(the disconnected branch); once a real pymongo `Collection` is assigned,
its `__bool__` raises `NotImplementedError` (pymongo >= 3.0, forced by
the `ServerSelectionTimeoutError` import), so the guard line itself
raises. A result of `.ok false` can therefore never occur. -/
def pyNotCollection (collSet : Bool) : Except PyExc Bool :=
  if collSet then .error .notImplError else .ok true

/-- Python dict assignment on the accumulator of `get_all_activities`
(keys are the raw values popped from the `"name"` field). -/
def pyDictSet (m : List (BVal × Doc)) (k : BVal) (v : Doc) : List (BVal × Doc) :=
  match m with
  | [] => [(k, v)]
  | (k2, v2) :: rest => if k2 = k then (k2, v) :: rest else (k2, v2) :: pyDictSet rest k v

/-- Lookup in the mapping returned by `get_all_activities`. -/
def pyDictGet (m : List (BVal × Doc)) (k : BVal) : Option Doc :=
  match m with
  | [] => none
  | (k2, v) :: rest => if k2 = k then some v else pyDictGet rest k

/-- The loop body of `get_all_activities`: for each returned document, pop
`"name"` (a `KeyError` escapes if absent), pop `"_id"`, and store the rest
under the popped name. -/
def getAllLoop : List Doc → List (BVal × Doc) → Except PyExc (List (BVal × Doc))
  | [], acc => .ok acc
  | d :: ds, acc =>
    match dlookup d "name" with
    | none => .error .keyError
    | some nm => getAllLoop ds (pyDictSet acc nm (dpop (dpop d "name") "_id"))

/-- Mongo `find_one` with a filter on `"name"`: the first document whose
`"name"` field equals the string `n`. -/
def findOneByName (c : Collection) (n : String) : Option Doc :=
  c.docs.find? (fun d => decide (dlookup d "name" = some (BVal.s n)))

/-- Replace the first document matching the filter. -/
def updateFirst (ds : List Doc) (n : String) (d2 : Doc) : List Doc :=
  match ds with
  | [] => []
  | d :: rest =>
    if dlookup d "name" = some (BVal.s n) then d2 :: rest
    else d :: updateFirst rest n d2

/-- Remove the first document matching the filter (`delete_one`). -/
def removeFirst (ds : List Doc) (n : String) : List Doc :=
  match ds with
  | [] => []
  | d :: rest =>
    if dlookup d "name" = some (BVal.s n) then rest
    else d :: removeFirst rest n

/-- The dict literal `{"name": name, **activity_data}` of `create_activity`
(a `"name"` key inside `activity_data` overwrites the value while keeping
the first position). -/
def mkInsertDoc (name : String) (activity_data : Doc) : Doc :=
  activity_data.foldl (fun d p => dset d p.1 p.2) [("name", BVal.s name)]

/-- Mongo `insert_one`: the unique index on `"name"`, when present,
rejects a document whose `"name"` value (or its absence) matches an
existing one (`DuplicateKeyError`, returned as `none`); otherwise the
document is appended with a fresh `"_id"` added when it has none. -/
def insertOne (c : Collection) (d : Doc) (oid : Nat) : Option Collection :=
  if c.uniqueIndexOnName &&
      c.docs.any (fun e => decide (dlookup e "name" = dlookup d "name")) then
    none
  else
    some { c with
      docs := c.docs ++ [if dhas d "_id" then d else d ++ [("_id", BVal.oid oid)]] }

/-- Mongo `$addToSet` on `"participants"` applied to one document: creates
the array field if missing, appends the email if absent (reporting a
modification), is a no-op if present, and is a server error on a
non-array field. -/
def addToSetParticipants (d : Doc) (email : String) : Except PyExc (Doc × Bool) :=
  match dlookup d "participants" with
  | none => .ok (dset d "participants" (.arr [email]), true)
  | some (.arr l) =>
    if email ∈ l then .ok (d, false)
    else .ok (dset d "participants" (.arr (l ++ [email])), true)
  | some _ => .error .typeError

/-- Mongo `$pull` on `"participants"` applied to one document: removes
every occurrence of the email from the array field; no-op when the field
is missing; server error on a non-array field. -/
def pullParticipants (d : Doc) (email : String) : Except PyExc (Doc × Bool) :=
  match dlookup d "participants" with
  | none => .ok (d, false)
  | some (.arr l) =>
    let l2 := l.filter (fun v => decide (v ≠ email))
    if l2 = l then .ok (d, false)
    else .ok (dset d "participants" (.arr l2), true)
  | some _ => .error .typeError

/-- Mongo `$set` with the given updates applied to one document. -/
def applySet (d : Doc) (updates : Doc) : Doc :=
  updates.foldl (fun a p => dset a p.1 p.2) d

/-- Mongo `update_one` filtered on `"name"`: apply `mod` to the first
matching document; report whether a document was matched and actually
modified (`modified_count > 0`). -/
def updateOneByName (c : Collection) (n : String)
    (mod : Doc → Except PyExc (Doc × Bool)) : Except PyExc (Collection × Bool) :=
  match findOneByName c n with
  | none => .ok (c, false)
  | some d =>
    match mod d with
    | .error e => .error e
    | .ok (d2, modified) =>
      .ok ({ c with docs := updateFirst c.docs n d2 }, modified)

namespace ActivityDatabase

/-- Model of `get_all_activities` from `db.py`: the opening truthiness
guard returns the empty mapping while the collection reference is `None`
and raises `NotImplementedError` (uncaught — this function has no
`try/except` at all) once it is set. The `.ok false` arm keeps the
translation of the rest of the body (iterate `find()`, popping `"name"`
and `"_id"`), which the real program can never reach. -/
def get_all_activities (s : ActivityDatabase) : Except PyExc (List (BVal × Doc)) :=
  match pyNotCollection s.collSet with
  | .error e => .error e
  | .ok true => .ok []
  | .ok false => getAllLoop s.store.docs []

/-- Model of `get_activity` from `db.py`: the guard returns `None` while
disconnected and raises `NotImplementedError` (uncaught) once the
reference is set. The unreachable arm keeps the body: `find_one` by name,
popping only `"_id"` (the `"name"` field would stay in the returned
dict). -/
def get_activity (s : ActivityDatabase) (activity_name : String) :
    Except PyExc (Option Doc) :=
  match pyNotCollection s.collSet with
  | .error e => .error e
  | .ok true => .ok none
  | .ok false =>
    match findOneByName s.store activity_name with
    | none => .ok none
    | some d => .ok (some (dpop d "_id"))

/-- Model of `create_activity` from `db.py`: the guard returns `False`
while disconnected and raises `NotImplementedError` once the reference is
set — the guard sits *outside* the `try/except`, so the exception
escapes. The unreachable arm keeps the `try` body: `insert_one` with the
duplicate-key error caught as `False`. -/
def create_activity (s : ActivityDatabase) (name : String) (activity_data : Doc) :
    Except PyExc Bool × ActivityDatabase :=
  match pyNotCollection s.collSet with
  | .error e => (.error e, s)
  | .ok true => (.ok false, s)
  | .ok false =>
    match insertOne s.store (mkInsertDoc name activity_data) s.nextOid with
    | none => (.ok false, s)
    | some c => (.ok true, { s with store := c, nextOid := s.nextOid + 1 })

/-- Model of `add_participant` from `db.py`: the guard returns `False`
while disconnected and raises `NotImplementedError` (outside the `try`)
once the reference is set. The unreachable arm keeps the `try` body:
`update_one` with `$addToSet`, returning `modified_count > 0`, faults
caught as `False`. -/
def add_participant (s : ActivityDatabase) (activity_name email : String) :
    Except PyExc Bool × ActivityDatabase :=
  match pyNotCollection s.collSet with
  | .error e => (.error e, s)
  | .ok true => (.ok false, s)
  | .ok false =>
    match updateOneByName s.store activity_name (addToSetParticipants · email) with
    | .error _ => (.ok false, s)
    | .ok (c, modified) => (.ok modified, { s with store := c })

/-- Model of `remove_participant` from `db.py`: same shape as
`add_participant`, with `$pull` in the unreachable `try` body. -/
def remove_participant (s : ActivityDatabase) (activity_name email : String) :
    Except PyExc Bool × ActivityDatabase :=
  match pyNotCollection s.collSet with
  | .error e => (.error e, s)
  | .ok true => (.ok false, s)
  | .ok false =>
    match updateOneByName s.store activity_name (pullParticipants · email) with
    | .error _ => (.ok false, s)
    | .ok (c, modified) => (.ok modified, { s with store := c })

/-- Model of `delete_activity` from `db.py`: same shape, with
`delete_one` (`deleted_count > 0`) in the unreachable `try` body. -/
def delete_activity (s : ActivityDatabase) (activity_name : String) :
    Except PyExc Bool × ActivityDatabase :=
  match pyNotCollection s.collSet with
  | .error e => (.error e, s)
  | .ok true => (.ok false, s)
  | .ok false =>
    match findOneByName s.store activity_name with
    | none => (.ok false, s)
    | some _ =>
      (.ok true,
       { s with store := { s.store with docs := removeFirst s.store.docs activity_name } })

/-- Model of `update_activity` from `db.py`: same shape, with `$set`
(`modified_count` counts only actual change) in the unreachable `try`
body. -/
def update_activity (s : ActivityDatabase) (activity_name : String) (updates : Doc) :
    Except PyExc Bool × ActivityDatabase :=
  match pyNotCollection s.collSet with
  | .error e => (.error e, s)
  | .ok true => (.ok false, s)
  | .ok false =>
    match updateOneByName s.store activity_name
        (fun d => .ok (applySet d updates, decide (applySet d updates ≠ d))) with
    | .error _ => (.ok false, s)
    | .ok (c, modified) => (.ok modified, { s with store := c })

end ActivityDatabase

/-! ## Request handlers (`src/src/app.py`)

The handlers return the HTTP status they resolve to (`raise HTTPException`
is resolving to that status), the adapter state after the request, and the
trace of adapter operations they invoked, so that "never attempts a store
mutation" is a statement about the trace. An uncaught Python exception
(such as the `NotImplementedError` escaping `get_activity` on a connected
adapter, which FastAPI turns into an unhandled-exception 500) is
`.error`. -/

/-- An adapter operation invoked by a handler. -/
inductive AdapterCall where
  | getActivityCall
  | addParticipantCall
  | removeParticipantCall
deriving DecidableEq, Repr

/-- Contiguous-prefix test on character lists (helper for Python's
substring `in` on strings). -/
def startsWithChars : List Char → List Char → Bool
  | [], _ => true
  | _ :: _, [] => false
  | a :: as, b :: bs => a == b && startsWithChars as bs

/-- Contiguous-substring test on character lists. -/
def hasSubChars (n : List Char) (h : List Char) : Bool :=
  match h with
  | [] => n.isEmpty
  | _ :: t => startsWithChars n h || hasSubChars n t

/-- Python `email in v`: membership for an array, substring test for a
string, `TypeError` for a non-iterable value. -/
def pyInVal (email : String) (v : BVal) : Except PyExc Bool :=
  match v with
  | .arr l => .ok (decide (email ∈ l))
  | .s str => .ok (hasSubChars email.data str.data)
  | _ => .error .typeError

/-- Model of `activity.get("participants", [])` from the handlers. -/
def getParticipantsOrEmpty (activity : Doc) : BVal :=
  (dlookup activity "participants").getD (.arr [])

/-- Model of `signup_for_activity` from `app.py`: 404 when the looked-up
activity is falsy (`None` or an empty dict), 400 when the email is
already in the participant list, then `add_participant` mapped to 200 on
`True` and 500 on `False`. An exception from any adapter call
propagates. -/
def signup_for_activity (s : ActivityDatabase) (activity_name email : String) :
    Except PyExc Nat × ActivityDatabase × List AdapterCall :=
  match s.get_activity activity_name with
  | .error e => (.error e, s, [.getActivityCall])
  | .ok none => (.ok 404, s, [.getActivityCall])
  | .ok (some activity) =>
    if activity.isEmpty then (.ok 404, s, [.getActivityCall])
    else
      match pyInVal email (getParticipantsOrEmpty activity) with
      | .error e => (.error e, s, [.getActivityCall])
      | .ok true => (.ok 400, s, [.getActivityCall])
      | .ok false =>
        match s.add_participant activity_name email with
        | (.ok true, s2) => (.ok 200, s2, [.getActivityCall, .addParticipantCall])
        | (.ok false, s2) => (.ok 500, s2, [.getActivityCall, .addParticipantCall])
        | (.error e, s2) => (.error e, s2, [.getActivityCall, .addParticipantCall])

/-- Model of `unregister_from_activity` from `app.py`: 404 when the
looked-up activity is falsy, 400 when the email is *not* in the
participant list, then `remove_participant` mapped to 200 on `True` and
500 on `False`. An exception from any adapter call propagates. -/
def unregister_from_activity (s : ActivityDatabase) (activity_name email : String) :
    Except PyExc Nat × ActivityDatabase × List AdapterCall :=
  match s.get_activity activity_name with
  | .error e => (.error e, s, [.getActivityCall])
  | .ok none => (.ok 404, s, [.getActivityCall])
  | .ok (some activity) =>
    if activity.isEmpty then (.ok 404, s, [.getActivityCall])
    else
      match pyInVal email (getParticipantsOrEmpty activity) with
      | .error e => (.error e, s, [.getActivityCall])
      | .ok false => (.ok 400, s, [.getActivityCall])
      | .ok true =>
        match s.remove_participant activity_name email with
        | (.ok true, s2) => (.ok 200, s2, [.getActivityCall, .removeParticipantCall])
        | (.ok false, s2) => (.ok 500, s2, [.getActivityCall, .removeParticipantCall])
        | (.error e, s2) => (.error e, s2, [.getActivityCall, .removeParticipantCall])

/-! ## Seed script (`src/migrate_to_mongo.py`) -/

/-- The `INITIAL_ACTIVITIES` dataset of `migrate_to_mongo.py`. -/
def INITIAL_ACTIVITIES : List (String × Doc) :=
  [("Chess Club",
    [("description", .s "Learn strategies and compete in chess tournaments"),
     ("schedule", .s "Fridays, 3:30 PM - 5:00 PM"),
     ("max_participants", .i 12),
     ("participants", .arr ["michael@mergington.edu", "daniel@mergington.edu"])]),
   ("Programming Class",
    [("description", .s "Learn programming fundamentals and build software projects"),
     ("schedule", .s "Tuesdays and Thursdays, 3:30 PM - 4:30 PM"),
     ("max_participants", .i 20),
     ("participants", .arr ["emma@mergington.edu", "sophia@mergington.edu"])]),
   ("Gym Class",
    [("description", .s "Physical education and sports activities"),
     ("schedule", .s "Mondays, Wednesdays, Fridays, 2:00 PM - 3:00 PM"),
     ("max_participants", .i 30),
     ("participants", .arr ["john@mergington.edu", "olivia@mergington.edu"])]),
   ("Soccer Team",
    [("description", .s "Join the school soccer team and compete in matches"),
     ("schedule", .s "Tuesdays and Thursdays, 4:00 PM - 5:30 PM"),
     ("max_participants", .i 22),
     ("participants", .arr ["liam@mergington.edu", "noah@mergington.edu"])]),
   ("Basketball Team",
    [("description", .s "Practice and play basketball with the school team"),
     ("schedule", .s "Wednesdays and Fridays, 3:30 PM - 5:00 PM"),
     ("max_participants", .i 15),
     ("participants", .arr ["ava@mergington.edu", "mia@mergington.edu"])]),
   ("Art Club",
    [("description", .s "Explore your creativity through painting and drawing"),
     ("schedule", .s "Thursdays, 3:30 PM - 5:00 PM"),
     ("max_participants", .i 15),
     ("participants", .arr ["amelia@mergington.edu", "harper@mergington.edu"])]),
   ("Drama Club",
    [("description", .s "Act, direct, and produce plays and performances"),
     ("schedule", .s "Mondays and Wednesdays, 4:00 PM - 5:30 PM"),
     ("max_participants", .i 20),
     ("participants", .arr ["ella@mergington.edu", "scarlett@mergington.edu"])]),
   ("Math Club",
    [("description", .s "Solve challenging problems and participate in math competitions"),
     ("schedule", .s "Tuesdays, 3:30 PM - 4:30 PM"),
     ("max_participants", .i 10),
     ("participants", .arr ["james@mergington.edu", "benjamin@mergington.edu"])]),
   ("Debate Team",
    [("description", .s "Develop public speaking and argumentation skills"),
     ("schedule", .s "Fridays, 4:00 PM - 5:30 PM"),
     ("max_participants", .i 12),
     ("participants", .arr ["charlotte@mergington.edu", "henry@mergington.edu"])])]

/-- Model of `db.activities_collection.delete_many` with an empty filter:
clear the collection. This is a direct attribute access and method call —
no truth test — so it really executes in the script. -/
def deleteMany (s : ActivityDatabase) : ActivityDatabase :=
  { s with store := { s.store with docs := [] } }

/-- The insertion loop of `migrate()`: one `create_activity` per dataset
item, counting reported successes; the loop has no `try/except`, so an
exception escaping `create_activity` aborts the loop and propagates. The
adapter state (carrying the server-side store) at that moment is
returned alongside. -/
def migrateLoop (s : ActivityDatabase) (items : List (String × Doc)) (count : Nat) :
    Except PyExc Nat × ActivityDatabase :=
  match items with
  | [] => (.ok count, s)
  | (n, d) :: rest =>
    match s.create_activity n d with
    | (.error e, s2) => (.error e, s2)
    | (.ok r, s2) => migrateLoop s2 rest (count + if r then 1 else 0)

/-- Model of `migrate()` from `migrate_to_mongo.py`: connect (returning
`False` on failure), clear the collection, insert the dataset counting
per-item successes, close, and report whether every item loaded. An
exception escaping the loop propagates out of `migrate` (before
`close()`); the second component is the state — in particular the
server-side store — when the function ends, normally or by the escaping
exception. -/
def migrate (initialStore : Collection)
    (connectFail : Option ActivityDatabase.ConnectStep) :
    Except PyExc Bool × ActivityDatabase :=
  let r := (ActivityDatabase.init initialStore).connect connectFail
  if r.1 = false then (.ok false, r.2)
  else
    match migrateLoop (deleteMany r.2) INITIAL_ACTIVITIES 0 with
    | (.error e, s3) => (.error e, s3)
    | (.ok count, s3) =>
      (.ok (count == INITIAL_ACTIVITIES.length), s3.close)

/-- The exit status of the seed script run: `sys.exit(0 if success else
1)` on a normal return, and the interpreter's exit status 1 when the
script dies on an uncaught exception. -/
def migrateExitCode (initialStore : Collection)
    (connectFail : Option ActivityDatabase.ConnectStep) : Nat :=
  match (migrate initialStore connectFail).1 with
  | .ok true => 0
  | .ok false => 1
  | .error _ => 1

/-- A fresh adapter facing a collection holding the given documents,
after a clean `connect()` run (so the collection reference is set). -/
def connectedTo (docs : List Doc) : ActivityDatabase :=
  ((ActivityDatabase.init { docs := docs, uniqueIndexOnName := false }).connect none).2

/-! ## Claims -/

/-- C1 (counterexample): the claim says every adapter operation resolves
store-layer faults to a typed boolean/optional result and lets nothing
propagate. It is false: on a connected adapter, `create_activity` — a
mutator whose `try/except` the claim relies on — raises
`NotImplementedError` at the `if not self.activities_collection`
truthiness guard, which sits before the `try`, and the exception escapes
uncaught instead of any typed result being returned. -/
theorem C1_counterexample :
    (connectedTo []).create_activity "Chess Club" []
      = (.error .notImplError, connectedTo []) := rfl

/-- C1 (amended): no adapter operation ever reaches the underlying store,
so no store fault can even arise during one. On a disconnected adapter
each of the seven operations returns its typed empty/`None`/`False`
result without raising; on a connected adapter each raises
`NotImplementedError` at the collection truthiness guard — before and
outside every `try/except` — and that fault propagates to the caller
uncaught, with the state unchanged. -/
theorem C1_fault_handling (s : ActivityDatabase) (n e : String)
    (data updates : Doc) :
    (s.collSet = false →
      s.get_all_activities = .ok [] ∧
      s.get_activity n = .ok none ∧
      s.create_activity n data = (.ok false, s) ∧
      s.add_participant n e = (.ok false, s) ∧
      s.remove_participant n e = (.ok false, s) ∧
      s.delete_activity n = (.ok false, s) ∧
      s.update_activity n updates = (.ok false, s)) ∧
    (s.collSet = true →
      s.get_all_activities = .error .notImplError ∧
      s.get_activity n = .error .notImplError ∧
      s.create_activity n data = (.error .notImplError, s) ∧
      s.add_participant n e = (.error .notImplError, s) ∧
      s.remove_participant n e = (.error .notImplError, s) ∧
      s.delete_activity n = (.error .notImplError, s) ∧
      s.update_activity n updates = (.error .notImplError, s)) := by
  constructor <;> intro hc <;>
    simp [ActivityDatabase.get_all_activities, ActivityDatabase.get_activity,
      ActivityDatabase.create_activity, ActivityDatabase.add_participant,
      ActivityDatabase.remove_participant, ActivityDatabase.delete_activity,
      ActivityDatabase.update_activity, pyNotCollection, hc]

/-- C1 witness: the amended statement at a concrete disconnected adapter
and at a concrete connected one. -/
theorem C1_fault_handling_witness :
    ((ActivityDatabase.init ⟨[], false⟩).collSet = false ∧
     (ActivityDatabase.init ⟨[], false⟩).get_all_activities = .ok [] ∧
     (ActivityDatabase.init ⟨[], false⟩).create_activity "Chess Club" []
       = (.ok false, ActivityDatabase.init ⟨[], false⟩)) ∧
    ((connectedTo []).collSet = true ∧
     (connectedTo []).get_all_activities = .error .notImplError ∧
     (connectedTo []).add_participant "Chess Club" "a@b.edu"
       = (.error .notImplError, connectedTo [])) :=
  ⟨⟨rfl,
    ((C1_fault_handling (ActivityDatabase.init ⟨[], false⟩)
        "Chess Club" "a@b.edu" [] []).1 rfl).1,
    ((C1_fault_handling (ActivityDatabase.init ⟨[], false⟩)
        "Chess Club" "a@b.edu" [] []).1 rfl).2.2.1⟩,
   rfl,
   ((C1_fault_handling (connectedTo []) "Chess Club" "a@b.edu" [] []).2 rfl).1,
   ((C1_fault_handling (connectedTo []) "Chess Club" "a@b.edu" [] []).2 rfl).2.2.2.1⟩

/-- C2 (counterexample): the claim says a failed `connect` always leaves
the adapter in the disconnected state, where reads are empty. Failing at
the unique-index-creation step refutes it: `connect` returns `False`,
but `self.activities_collection` has already been assigned, so a
subsequent `get_all_activities` raises `NotImplementedError` at the
truthiness guard instead of returning the disconnected empty mapping. -/
theorem C2_counterexample :
    ((ActivityDatabase.init ⟨[[("name", BVal.s "Chess Club")]], false⟩).connect
        (some .createIndex)).1 = false ∧
    ((ActivityDatabase.init ⟨[[("name", BVal.s "Chess Club")]], false⟩).connect
        (some .createIndex)).2.get_all_activities = .error .notImplError ∧
    ((ActivityDatabase.init ⟨[[("name", BVal.s "Chess Club")]], false⟩).connect
        (some .createIndex)).2.get_all_activities ≠ .ok [] := by
  refine ⟨rfl, rfl, ?_⟩
  intro h
  rw [show ((ActivityDatabase.init ⟨[[("name", BVal.s "Chess Club")]], false⟩).connect
      (some .createIndex)).2.get_all_activities = .error .notImplError from rfl] at h
  simp at h

/-- C2 (amended): whichever step of `connect` raises, `connect` catches
the error and returns `False`. When the fault hits client construction,
the ping, or the database/collection lookup, the collection reference of
a fresh adapter stays unset and every subsequent operation behaves as
disconnected (empty reads, `None` lookups, `False` mutations, no
raising). A fault at unique-index creation instead leaves the collection
reference set, after which every subsequent operation raises
`NotImplementedError` at the truthiness guard rather than showing the
disconnected behavior. -/
theorem C2_connect_failure (store : Collection)
    (step : ActivityDatabase.ConnectStep) (n e : String) (data : Doc) :
    ((ActivityDatabase.init store).connect (some step)).1 = false ∧
    (step ≠ .createIndex →
      ((ActivityDatabase.init store).connect (some step)).2.collSet = false ∧
      ((ActivityDatabase.init store).connect (some step)).2.get_all_activities
        = .ok [] ∧
      ((ActivityDatabase.init store).connect (some step)).2.get_activity n
        = .ok none ∧
      (((ActivityDatabase.init store).connect (some step)).2.create_activity n data).1
        = .ok false ∧
      (((ActivityDatabase.init store).connect (some step)).2.add_participant n e).1
        = .ok false) ∧
    (step = .createIndex →
      ((ActivityDatabase.init store).connect (some step)).2.collSet = true ∧
      ((ActivityDatabase.init store).connect (some step)).2.get_all_activities
        = .error .notImplError ∧
      (((ActivityDatabase.init store).connect (some step)).2.create_activity n data).1
        = .error .notImplError) := by
  cases step <;>
    simp [ActivityDatabase.init, ActivityDatabase.connect,
      ActivityDatabase.get_all_activities, ActivityDatabase.get_activity,
      ActivityDatabase.create_activity, ActivityDatabase.add_participant,
      pyNotCollection]

/-- C2 witness: the amended statement at concrete inputs — a fault at the
ping step (adapter stays disconnected) and at the index-creation step
(subsequent read raises). -/
theorem C2_connect_failure_witness :
    ((ActivityDatabase.init ⟨[], false⟩).connect (some .ping)).1 = false ∧
    ((ActivityDatabase.init ⟨[], false⟩).connect (some .ping)).2.collSet = false ∧
    ((ActivityDatabase.init ⟨[], false⟩).connect (some .ping)).2.get_all_activities
      = .ok [] ∧
    ((ActivityDatabase.init ⟨[], false⟩).connect
        (some .createIndex)).2.get_all_activities = .error .notImplError :=
  ⟨(C2_connect_failure ⟨[], false⟩ .ping "Chess Club" "a@b.edu" []).1,
   ((C2_connect_failure ⟨[], false⟩ .ping "Chess Club" "a@b.edu" []).2.1
     (by decide)).1,
   ((C2_connect_failure ⟨[], false⟩ .ping "Chess Club" "a@b.edu" []).2.1
     (by decide)).2.1,
   ((C2_connect_failure ⟨[], false⟩ .createIndex "Chess Club" "a@b.edu" []).2.2
     rfl).2.1⟩

/-- C3 (counterexample): the claim says creating an activity and then
fetching it returns exactly the supplied attributes. It is false on a
connected adapter (the only kind that could hold data):
`create_activity` raises `NotImplementedError` at the truthiness guard —
creating nothing — and `get_activity` raises the same way, so the fetch
never returns the supplied attributes. -/
theorem C3_counterexample :
    (connectedTo []).create_activity "Chess Club" [("description", BVal.s "Fun")]
      = (.error .notImplError, connectedTo []) ∧
    ((connectedTo []).create_activity "Chess Club"
        [("description", BVal.s "Fun")]).2.get_activity "Chess Club"
      = .error .notImplError ∧
    ((connectedTo []).create_activity "Chess Club"
        [("description", BVal.s "Fun")]).2.get_activity "Chess Club"
      ≠ .ok (some [("description", BVal.s "Fun")]) := by
  refine ⟨rfl, rfl, ?_⟩
  intro h
  rw [show ((connectedTo []).create_activity "Chess Club"
      [("description", BVal.s "Fun")]).2.get_activity "Chess Club"
      = .error .notImplError from rfl] at h
  simp at h

/-- C3 (amended): creating and then fetching never yields the supplied
attributes. On a connected adapter both `create_activity` and
`get_activity` raise `NotImplementedError` at the collection truthiness
guard before any store access, so nothing is created and nothing is
fetched, and the state is unchanged; on a disconnected adapter
`create_activity` returns `False` and `get_activity` returns `None`. -/
theorem C3_create_then_fetch (s : ActivityDatabase) (name : String) (data : Doc) :
    (s.collSet = true →
      s.create_activity name data = (.error .notImplError, s) ∧
      s.get_activity name = .error .notImplError) ∧
    (s.collSet = false →
      s.create_activity name data = (.ok false, s) ∧
      s.get_activity name = .ok none) := by
  constructor <;> intro hc <;>
    simp [ActivityDatabase.create_activity, ActivityDatabase.get_activity,
      pyNotCollection, hc]

/-- C3 witness: the amended statement at a concrete connected adapter and
a concrete fresh one. -/
theorem C3_create_then_fetch_witness :
    ((connectedTo []).create_activity "Chess Club" [("description", BVal.s "Fun")]
      = (.error .notImplError, connectedTo [])) ∧
    ((connectedTo []).get_activity "Chess Club" = .error .notImplError) ∧
    ((ActivityDatabase.init ⟨[], false⟩).create_activity "Chess Club"
        [("description", BVal.s "Fun")]
      = (.ok false, ActivityDatabase.init ⟨[], false⟩)) ∧
    ((ActivityDatabase.init ⟨[], false⟩).get_activity "Chess Club" = .ok none) :=
  ⟨((C3_create_then_fetch (connectedTo []) "Chess Club"
      [("description", BVal.s "Fun")]).1 rfl).1,
   ((C3_create_then_fetch (connectedTo []) "Chess Club"
      [("description", BVal.s "Fun")]).1 rfl).2,
   ((C3_create_then_fetch (ActivityDatabase.init ⟨[], false⟩) "Chess Club"
      [("description", BVal.s "Fun")]).2 rfl).1,
   ((C3_create_then_fetch (ActivityDatabase.init ⟨[], false⟩) "Chess Club"
      [("description", BVal.s "Fun")]).2 rfl).2⟩

/-- C4 (counterexample): the claim says that after `close()` the adapter
returns an empty mapping from `get_all_activities` and `False` from
`create_activity`, neither raising. It is false: `close()` leaves
`self.activities_collection` set, so both operations raise
`NotImplementedError` at the truthiness guard. -/
theorem C4_counterexample :
    (connectedTo []).close.get_all_activities = .error .notImplError ∧
    ((connectedTo []).close.create_activity "Chess Club" []).1
      = .error .notImplError := ⟨rfl, rfl⟩

/-- C4 (amended): before a successful `connect` has set the collection
reference, `get_all_activities` returns the empty mapping and
`create_activity` returns `False`, neither raising. After `close()` the
references remain set, so both operations raise `NotImplementedError` at
the truthiness guard — exactly as they already do on any adapter whose
collection reference is set, closed or not; the closed client itself is
never reached. -/
theorem C4_after_close (s : ActivityDatabase) (n : String) (data : Doc) :
    (s.collSet = false →
      s.get_all_activities = .ok [] ∧ s.create_activity n data = (.ok false, s)) ∧
    (s.collSet = true →
      s.close.get_all_activities = .error .notImplError ∧
      (s.close.create_activity n data).1 = .error .notImplError ∧
      s.get_all_activities = .error .notImplError) := by
  have hcc : s.close.collSet = s.collSet := by
    unfold ActivityDatabase.close
    split <;> rfl
  constructor <;> intro hc
  · simp [ActivityDatabase.get_all_activities, ActivityDatabase.create_activity,
      pyNotCollection, hc]
  · simp [ActivityDatabase.get_all_activities, ActivityDatabase.create_activity,
      pyNotCollection, hcc, hc]

/-- C4 witness: the amended statement at a concrete fresh adapter and a
concrete connected-then-closed one. -/
theorem C4_after_close_witness :
    ((ActivityDatabase.init ⟨[], false⟩).get_all_activities = .ok [] ∧
     (ActivityDatabase.init ⟨[], false⟩).create_activity "Chess Club" []
       = (.ok false, ActivityDatabase.init ⟨[], false⟩)) ∧
    ((connectedTo []).close.get_all_activities = .error .notImplError ∧
     ((connectedTo []).close.create_activity "Chess Club" []).1
       = .error .notImplError) :=
  ⟨(C4_after_close (ActivityDatabase.init ⟨[], false⟩) "Chess Club" []).1 rfl,
   ⟨((C4_after_close (connectedTo []) "Chess Club" []).2 rfl).1,
    ((C4_after_close (connectedTo []) "Chess Club" []).2 rfl).2.1⟩⟩

/-- C5 (code bug): the spec's 404/400/500/200 mapping for signup is the
evident intent, but on a connected adapter — the only state in which an
activity can exist — the handler's very first adapter call,
`get_activity`, raises `NotImplementedError` at the collection truthiness
guard, so the request dies as an unhandled exception (framework 500) and
the handler never resolves to any of the claimed statuses. -/
theorem C5_signup_raises (s : ActivityDatabase) (n e : String)
    (hc : s.collSet = true) :
    signup_for_activity s n e = (.error .notImplError, s, [.getActivityCall]) ∧
    ∀ status : Nat, (signup_for_activity s n e).1 ≠ .ok status := by
  have hga : s.get_activity n = .error .notImplError := by
    simp [ActivityDatabase.get_activity, pyNotCollection, hc]
  have h1 : signup_for_activity s n e
      = (.error .notImplError, s, [.getActivityCall]) := by
    simp [signup_for_activity, hga]
  exact ⟨h1, fun status => by rw [h1]; simp⟩

/-- C5 witness: the statement at a concrete connected adapter holding a
Chess Club record. -/
theorem C5_signup_raises_witness :
    (connectedTo [[("name", BVal.s "Chess Club"),
        ("participants", BVal.arr ["michael@mergington.edu"])]]).collSet = true ∧
    signup_for_activity
        (connectedTo [[("name", BVal.s "Chess Club"),
          ("participants", BVal.arr ["michael@mergington.edu"])]])
        "Chess Club" "a@b.edu"
      = (.error .notImplError,
         connectedTo [[("name", BVal.s "Chess Club"),
           ("participants", BVal.arr ["michael@mergington.edu"])]],
         [.getActivityCall]) :=
  ⟨rfl,
   (C5_signup_raises
     (connectedTo [[("name", BVal.s "Chess Club"),
       ("participants", BVal.arr ["michael@mergington.edu"])]])
     "Chess Club" "a@b.edu" rfl).1⟩

/-- C6 (code bug): the spec's intent — unknown activity gives the
not-found outcome and no store mutation — fails in its first half on a
connected adapter: `get_activity` raises `NotImplementedError` at the
truthiness guard before the record could even be looked up, so the
handler dies with an unhandled exception instead of returning 404. The
second half still holds: the handler aborts at the lookup, so the call
trace contains no mutating adapter operation. -/
theorem C6_not_found_raises (s : ActivityDatabase) (n e : String)
    (hc : s.collSet = true) (_hn : findOneByName s.store n = none) :
    signup_for_activity s n e = (.error .notImplError, s, [.getActivityCall]) ∧
    unregister_from_activity s n e
      = (.error .notImplError, s, [.getActivityCall]) ∧
    AdapterCall.addParticipantCall ∉ (signup_for_activity s n e).2.2 ∧
    AdapterCall.removeParticipantCall ∉ (unregister_from_activity s n e).2.2 := by
  have hga : s.get_activity n = .error .notImplError := by
    simp [ActivityDatabase.get_activity, pyNotCollection, hc]
  simp [signup_for_activity, unregister_from_activity, hga]

/-- C6 witness: the statement at a concrete connected adapter with no
record for the requested name. -/
theorem C6_not_found_raises_witness :
    findOneByName (connectedTo [[("name", BVal.s "Chess Club"),
        ("participants", BVal.arr [])]]).store "Art Club" = none ∧
    signup_for_activity
        (connectedTo [[("name", BVal.s "Chess Club"),
          ("participants", BVal.arr [])]]) "Art Club" "a@b.edu"
      = (.error .notImplError,
         connectedTo [[("name", BVal.s "Chess Club"),
           ("participants", BVal.arr [])]],
         [.getActivityCall]) ∧
    AdapterCall.addParticipantCall ∉
      (signup_for_activity
        (connectedTo [[("name", BVal.s "Chess Club"),
          ("participants", BVal.arr [])]]) "Art Club" "a@b.edu").2.2 :=
  ⟨by decide,
   (C6_not_found_raises
     (connectedTo [[("name", BVal.s "Chess Club"), ("participants", BVal.arr [])]])
     "Art Club" "a@b.edu" rfl (by decide)).1,
   (C6_not_found_raises
     (connectedTo [[("name", BVal.s "Chess Club"), ("participants", BVal.arr [])]])
     "Art Club" "a@b.edu" rfl (by decide)).2.2.1⟩

/-- C7 (code bug): the spec's idempotent-signup intent never executes:
on a connected adapter both calls to `add_participant` raise
`NotImplementedError` at the truthiness guard (which sits outside its
`try/except`), the state is unchanged, and `$addToSet` with its
modified-count is never reached — instead of the claimed first-success /
second-no-modification behavior. -/
theorem C7_add_twice_raises (s : ActivityDatabase) (n e : String)
    (hc : s.collSet = true) :
    s.add_participant n e = (.error .notImplError, s) ∧
    (s.add_participant n e).2.add_participant n e = (.error .notImplError, s) := by
  have h1 : s.add_participant n e = (.error .notImplError, s) := by
    simp [ActivityDatabase.add_participant, pyNotCollection, hc]
  exact ⟨h1, by rw [h1]; exact h1⟩

/-- C7 witness: the statement at a concrete connected adapter holding the
Chess Club roster. -/
theorem C7_add_twice_raises_witness :
    (connectedTo [[("name", BVal.s "Chess Club"),
        ("participants", BVal.arr ["michael@mergington.edu"])]]).collSet = true ∧
    (connectedTo [[("name", BVal.s "Chess Club"),
        ("participants", BVal.arr ["michael@mergington.edu"])]]).add_participant
        "Chess Club" "a@b.edu"
      = (.error .notImplError,
         connectedTo [[("name", BVal.s "Chess Club"),
           ("participants", BVal.arr ["michael@mergington.edu"])]]) :=
  ⟨rfl,
   (C7_add_twice_raises
     (connectedTo [[("name", BVal.s "Chess Club"),
       ("participants", BVal.arr ["michael@mergington.edu"])]])
     "Chess Club" "a@b.edu" rfl).1⟩

/-- C8 (code bug): the unique-name intent never executes: on a connected
adapter `create_activity` raises `NotImplementedError` at the truthiness
guard — outside its `try/except`, before `insert_one` and its
`DuplicateKeyError` are ever reached — instead of returning the claimed
`False`. Only the no-mutation half survives: the state, existing data
included, is unchanged, because the store is never touched. -/
theorem C8_create_duplicate_raises (s : ActivityDatabase) (name : String)
    (data : Doc) (hc : s.collSet = true)
    (_hex : (findOneByName s.store name).isSome = true) :
    s.create_activity name data = (.error .notImplError, s) := by
  simp [ActivityDatabase.create_activity, pyNotCollection, hc]

/-- C8 witness: the statement at a concrete connected collection already
holding a "Chess Club" document. -/
theorem C8_create_duplicate_raises_witness :
    ((findOneByName (connectedTo [[("name", BVal.s "Chess Club"),
        ("participants", BVal.arr [])]]).store "Chess Club").isSome = true) ∧
    (connectedTo [[("name", BVal.s "Chess Club"),
        ("participants", BVal.arr [])]]).create_activity
        "Chess Club" [("description", BVal.s "Second club")]
      = (.error .notImplError,
         connectedTo [[("name", BVal.s "Chess Club"),
           ("participants", BVal.arr [])]]) :=
  ⟨by decide,
   C8_create_duplicate_raises
     (connectedTo [[("name", BVal.s "Chess Club"), ("participants", BVal.arr [])]])
     "Chess Club" [("description", BVal.s "Second club")] rfl (by decide)⟩

/-- C9 (code bug): the seed run never loads anything. Against any
reachable store, `migrate()` connects, clears the collection with
`delete_many` (a direct call, which works), then the first
`create_activity` raises `NotImplementedError` at the truthiness guard;
the exception escapes the script, which exits with status 1 leaving the
collection empty — instead of the claimed 9/9 report with exit status 0. -/
theorem C9_migrate_crashes (store : Collection) :
    (migrate store none).1 = .error .notImplError ∧
    (migrate store none).2.store.docs = [] ∧
    migrateExitCode store none = 1 :=
  ⟨rfl, rfl, rfl⟩

/-- C10 (code bug): the claimed boolean contract of `add_participant`
never executes on a connected adapter: the call raises
`NotImplementedError` at the truthiness guard (outside its
`try/except`), so it returns neither `True` nor `False`, regardless of
activity existence or roster membership. -/
theorem C10_add_participant_raises (s : ActivityDatabase) (n e : String)
    (hc : s.collSet = true) :
    (s.add_participant n e).1 = .error .notImplError ∧
    ∀ b : Bool, (s.add_participant n e).1 ≠ .ok b := by
  have h1 : (s.add_participant n e).1 = .error .notImplError := by
    simp [ActivityDatabase.add_participant, pyNotCollection, hc]
  exact ⟨h1, fun b => by rw [h1]; simp⟩

/-- C10 witness: the statement at a concrete connected adapter, with an
existing activity and an email absent from its roster (the case the
claim says must return `True`). -/
theorem C10_add_participant_raises_witness :
    (connectedTo [[("name", BVal.s "Chess Club"),
        ("participants", BVal.arr ["michael@mergington.edu"])]]).collSet = true ∧
    ((connectedTo [[("name", BVal.s "Chess Club"),
        ("participants", BVal.arr ["michael@mergington.edu"])]]).add_participant
        "Chess Club" "a@b.edu").1 = .error .notImplError ∧
    ((connectedTo [[("name", BVal.s "Chess Club"),
        ("participants", BVal.arr ["michael@mergington.edu"])]]).add_participant
        "Chess Club" "a@b.edu").1 ≠ .ok true :=
  ⟨rfl,
   (C10_add_participant_raises
     (connectedTo [[("name", BVal.s "Chess Club"),
       ("participants", BVal.arr ["michael@mergington.edu"])]])
     "Chess Club" "a@b.edu" rfl).1,
   (C10_add_participant_raises
     (connectedTo [[("name", BVal.s "Chess Club"),
       ("participants", BVal.arr ["michael@mergington.edu"])]])
     "Chess Club" "a@b.edu" rfl).2 true⟩

end Mergington
